import Mathlib

/-
Verification of the dev-manager-tool event pipeline.

Shallow embedding of:
  src/services/watcher_service.py      (_ProjectEventHandler, WatcherService)
  src/services/event_processor.py      (EventProcessor)
  src/services/productivity_service.py (ProductivityService)
  src/config/settings.py               (Settings defaults used by the above)

Conventions:
  - Python dicts are association lists with `dictLookup` / `dictSet` /
    `dictPop` mirroring `d[k]` / `d[k] = v` / `d.pop(k, None)`.
  - Filesystem paths are their component lists (Path.parts); `str(path)`
    is modelled as joining the components with "/" (components never
    contain "/", so equality of renderings coincides with equality of parts).
  - Timestamps are rationals (minutes); datetime arithmetic becomes
    subtraction over w.
  - Python floats are modelled as rationals; round(x, 2) is modelled as
    exact decimal rounding with ties to even (pyRound).
-/

-- ─────────────────────────────────────────────────────────────
-- Python dict as an association list (insertion ordered)
-- ─────────────────────────────────────────────────────────────

def dictLookup {α : Type} : List (String × α) → String → Option α
  | [], _ => none
  | (k', v) :: rest, k => if k' = k then some v else dictLookup rest k

/-- `d[k] = v`: replace in place when the key is present, else append. -/
def dictSet {α : Type} : List (String × α) → String → α → List (String × α)
  | [], k, v => [(k, v)]
  | (k', v') :: rest, k, v =>
    if k' = k then (k, v) :: rest else (k', v') :: dictSet rest k v

/-- `d.pop(k, None)`: remove the entry for `k` when present. -/
def dictPop {α : Type} : List (String × α) → String → List (String × α)
  | [], _ => []
  | (k', v') :: rest, k => if k' = k then rest else (k', v') :: dictPop rest k

-- ─────────────────────────────────────────────────────────────
-- models/orm.py: enums
-- ─────────────────────────────────────────────────────────────

inductive EventType where
  | created
  | modified
  | deleted
  | moved
deriving DecidableEq, Repr

inductive SessionStatus where
  | active
  | idle
  | closed
deriving DecidableEq, Repr

-- ─────────────────────────────────────────────────────────────
-- config/settings.py (the fields the pipeline reads)
-- ─────────────────────────────────────────────────────────────

structure Settings where
  ignored_extensions : List String
  ignored_dirs : List String
  session_idle_timeout_minutes : Nat
deriving DecidableEq, Repr

/-- Defaults of IGNORED_EXTENSIONS / IGNORED_DIRS / SESSION_IDLE_TIMEOUT_MINUTES. -/
def defaultSettings : Settings :=
  { ignored_extensions := [".pyc", ".pyo", ".swp", ".swo", ".DS_Store"]
    ignored_dirs := ["__pycache__", "node_modules", ".git", ".venv", "dist", "build", ".next"]
    session_idle_timeout_minutes := 15 }

-- ─────────────────────────────────────────────────────────────
-- Filesystem values as seen by the watcher
-- ─────────────────────────────────────────────────────────────

/-- A pathlib.Path: its `.parts` and its `.suffix`. -/
structure FsPath where
  parts : List String
  suffix : String
deriving DecidableEq, Repr

/-- `str(path)`. -/
def pathStr (p : FsPath) : String := String.intercalate "/" p.parts

/-- `child.relative_to(root)`: the remaining parts, or none (ValueError). -/
def relTo (child root : List String) : Option (List String) :=
  if root.isPrefixOf child then some (child.drop root.length) else none

/-- A directory handed to watch_project, together with the answers the host
filesystem gives to `path.exists()` and `path.is_dir()`. -/
structure FsDir where
  parts : List String
  fs_exists : Bool
  fs_is_dir : Bool
deriving DecidableEq, Repr

-- ─────────────────────────────────────────────────────────────
-- watcher_service._ProjectEventHandler
-- ─────────────────────────────────────────────────────────────

/-- The dict built in `_ProjectEventHandler._push`. -/
structure FileEventEntry where
  event_type : EventType
  file_path : String
  relative_path : Option String
  is_directory : Bool
  occurred_at : ℚ
deriving DecidableEq, Repr

structure HandlerState where
  project_id : String
  project_path : List String
  ignored_extensions : List String
  ignored_dirs : List String
  buffer : List FileEventEntry
deriving DecidableEq, Repr

/-- The entry dict built in `_ProjectEventHandler._push`. -/
def mkEntry (h : HandlerState) (src : FsPath) (isDir : Bool) (t : EventType)
    (now : ℚ) : FileEventEntry :=
  { event_type := t
    file_path := pathStr src
    relative_path := (relTo src.parts h.project_path).map
      (fun ps => String.intercalate "/" ps)
    is_directory := isDir
    occurred_at := now }

/-- `_ProjectEventHandler._push`: filter by ignored extension, then by ignored
directory components anywhere in the path (`set(parts) & ignored_dirs`), then
append unless an entry with the same (file_path, event_type) is already
buffered. -/
def pushEntry (h : HandlerState) (src : FsPath) (isDir : Bool) (t : EventType)
    (now : ℚ) : HandlerState :=
  if src.suffix ∈ h.ignored_extensions then h
  else if ∃ c ∈ src.parts, c ∈ h.ignored_dirs then h
  else
    let entry := mkEntry h src isDir t now
    if ∃ e ∈ h.buffer, e.file_path = entry.file_path ∧ e.event_type = entry.event_type
    then h
    else { h with buffer := h.buffer ++ [entry] }

/-- `_ProjectEventHandler._flush`: empty buffer is a no-op; otherwise drain the
buffer and hand the batch out. -/
def flushBatch (h : HandlerState) : HandlerState × Option (List FileEventEntry) :=
  if h.buffer.isEmpty then (h, none)
  else ({ h with buffer := [] }, some h.buffer)

-- ─────────────────────────────────────────────────────────────
-- watcher_service.WatcherService
-- ─────────────────────────────────────────────────────────────

structure QueueItem where
  project_id : String
  batch : List FileEventEntry
deriving DecidableEq, Repr

structure WatcherState where
  ignored_extensions : List String
  ignored_dirs : List String
  /-- Handlers registered with the watchdog Observer via `observer.schedule`.
  Nothing ever unschedules an individual handler. -/
  scheduled : List HandlerState
  /-- Key set of the `_handlers` dict. -/
  handlers : List String
  /-- Contents of `self._queue` (`asyncio.Queue`). -/
  queue : List QueueItem
  /-- `asyncio.Queue` maxsize; `asyncio.Queue()` leaves it 0 = unbounded. -/
  queue_maxsize : Nat
  running : Bool
deriving DecidableEq, Repr

/-- `WatcherService.__init__`. -/
def watcherInit (st : Settings) : WatcherState :=
  { ignored_extensions := st.ignored_extensions
    ignored_dirs := st.ignored_dirs
    scheduled := []
    handlers := []
    queue := []
    queue_maxsize := 0
    running := false }

/-- `WatcherService.watch_project`. -/
def watch_project (s : WatcherState) (pid : String) (path : FsDir) :
    WatcherState × Bool :=
  if pid ∈ s.handlers then (s, true)
  else if ¬ path.fs_exists = true ∨ ¬ path.fs_is_dir = true then (s, false)
  else
    let h : HandlerState :=
      { project_id := pid
        project_path := path.parts
        ignored_extensions := s.ignored_extensions
        ignored_dirs := s.ignored_dirs
        buffer := [] }
    ({ s with scheduled := s.scheduled ++ [h], handlers := s.handlers ++ [pid] }, true)

/-- `WatcherService.unwatch_project`: only deletes the `_handlers` dict entry;
the handler stays scheduled on the Observer. -/
def unwatch_project (s : WatcherState) (pid : String) : WatcherState :=
  if pid ∈ s.handlers then { s with handlers := s.handlers.erase pid } else s

/-- `asyncio.Queue.put_nowait`: raises QueueFull (none) only when maxsize is
positive and reached; with maxsize 0 the queue is unbounded. -/
def put_nowait (maxsize : Nat) (q : List QueueItem) (item : QueueItem) :
    Option (List QueueItem) :=
  if 0 < maxsize ∧ maxsize ≤ q.length then none else some (q ++ [item])

/-- `WatcherService._sync_flush_callback`: put_nowait; on QueueFull the batch is
dropped and a warning is logged (the Bool records whether the batch was
enqueued). No counter of any kind is kept. -/
def sync_flush_callback (s : WatcherState) (pid : String)
    (batch : List FileEventEntry) : WatcherState × Bool :=
  match put_nowait s.queue_maxsize s.queue { project_id := pid, batch := batch } with
  | some q' => ({ s with queue := q' }, true)
  | none => (s, false)

/-- The watchdog Observer delivering one filesystem notification: every
scheduled handler whose watched root contains the path gets the event. -/
def dispatchEvent (s : WatcherState) (src : FsPath) (isDir : Bool)
    (t : EventType) (now : ℚ) : WatcherState :=
  { s with scheduled := s.scheduled.map (fun h =>
      if h.project_path.isPrefixOf src.parts then pushEntry h src isDir t now else h) }

/-- Debounce-timer expiry for the handler of `pid`: `_flush` followed by the
`on_flush` callback (`_sync_flush_callback`). -/
def flushProject (s : WatcherState) (pid : String) : WatcherState :=
  match s.scheduled.find? (fun h => decide (h.project_id = pid)) with
  | none => s
  | some h =>
    match (flushBatch h).2 with
    | none => s
    | some batch =>
      let s' := { s with scheduled := s.scheduled.map (fun g =>
        if g.project_id = pid then (flushBatch g).1 else g) }
      (sync_flush_callback s' pid batch).1

-- ─────────────────────────────────────────────────────────────
-- Helper lemmas about the buffer
-- ─────────────────────────────────────────────────────────────

/-- Number of buffered entries with the given (file_path, event_type) pair. -/
def countPK (buf : List FileEventEntry) (fp : String) (t : EventType) : Nat :=
  buf.countP (fun e => decide (e.file_path = fp ∧ e.event_type = t))

/-- Witness for C5 at a concrete handler and path. -/
def c5_handler : HandlerState :=
  { project_id := "p1"
    project_path := ["/", "repo"]
    ignored_extensions := defaultSettings.ignored_extensions
    ignored_dirs := defaultSettings.ignored_dirs
    buffer := [] }

def c5_src : FsPath := { parts := ["/", "repo", "main.py"], suffix := ".py" }

def c10_handler : HandlerState :=
  { project_id := "p1"
    project_path := ["/", "repo"]
    ignored_extensions := defaultSettings.ignored_extensions
    ignored_dirs := defaultSettings.ignored_dirs
    buffer := [] }

/-- A plain FILE whose base name is "node_modules" (suffix is empty). -/
def c10_src : FsPath := { parts := ["/", "repo", "node_modules"], suffix := "" }

-- ─────────────────────────────────────────────────────────────
-- C3: watch_project return values
-- ─────────────────────────────────────────────────────────────

def c3_dir : FsDir := { parts := ["/", "home", "proj"], fs_exists := true, fs_is_dir := true }

/-- The watcher after a first successful watch_project of "p1". -/
def c3_watched : WatcherState := (watch_project (watcherInit defaultSettings) "p1" c3_dir).1

def c3_bad_dir : FsDir := { parts := ["/", "none"], fs_exists := false, fs_is_dir := false }

-- ─────────────────────────────────────────────────────────────
-- C2: the handoff channel
-- ─────────────────────────────────────────────────────────────

def c2_item : QueueItem := { project_id := "p1", batch := [] }

/-- A watcher whose queue already holds 100 batches. -/
def c2_state : WatcherState :=
  { watcherInit defaultSettings with queue := List.replicate 100 c2_item }

-- ─────────────────────────────────────────────────────────────
-- C4: unwatch_project does not stop event forwarding
-- ─────────────────────────────────────────────────────────────

def c4_root : FsDir := { parts := ["/", "home", "proj"], fs_exists := true, fs_is_dir := true }

def c4_s1 : WatcherState := (watch_project (watcherInit defaultSettings) "p1" c4_root).1

def c4_s2 : WatcherState := unwatch_project c4_s1 "p1"

/-- A fresh file event arriving AFTER unwatch_project("p1") returned. -/
def c4_src : FsPath := { parts := ["/", "home", "proj", "main.py"], suffix := ".py" }

def c4_s3 : WatcherState := dispatchEvent c4_s2 c4_src false EventType.modified 7

def c4_s4 : WatcherState := flushProject c4_s3 "p1"

-- ─────────────────────────────────────────────────────────────
-- models/orm.py: the rows the pipeline touches
-- ─────────────────────────────────────────────────────────────

structure ProjectRow where
  id : String
  path : String
  project_type : String
  is_active : Bool
deriving DecidableEq, Repr

structure FileEventRow where
  project_id : String
  event_type : EventType
  file_path : String
  relative_path : Option String
  is_directory : Bool
  occurred_at : ℚ
  committed : Bool
deriving DecidableEq, Repr

structure WorkSessionRow where
  id : Nat
  project_id : String
  status : SessionStatus
  started_at : ℚ
  ended_at : Option ℚ
  active_minutes : ℚ
  files_touched : Nat
  commits_made : Nat
deriving DecidableEq, Repr

structure MetricRow where
  session_id : Nat
  files_per_hour : ℚ
  commits_per_hour : ℚ
  lines_added : Nat
  lines_removed : Nat
  most_edited_file : Option String
  primary_language : Option String
deriving DecidableEq, Repr

/-- The durable database state. Each processed batch runs against its own
SQLAlchemy session whose pending writes become durable only at `db.commit()`;
an exception triggers `db.rollback()`, discarding the pending writes. -/
structure DbState where
  projects : List ProjectRow
  file_events : List FileEventRow
  work_sessions : List WorkSessionRow
  metrics : List MetricRow
  next_session_id : Nat
deriving DecidableEq, Repr

-- ─────────────────────────────────────────────────────────────
-- event_processor.EventProcessor: commit timers
-- ─────────────────────────────────────────────────────────────

def AUTO_COMMIT_DEBOUNCE : Nat := 30

/-- One `asyncio.TimerHandle` produced by `loop.call_later`. -/
structure TimerHandle where
  key : String
  delay : Nat
deriving DecidableEq, Repr

structure ProcState where
  /-- `self._loop is not None` (set at the top of `run`). -/
  loop_set : Bool
  /-- Every handle ever created, in creation order (the arena the indices of
  `commit_timers` and `cancelled` point into). -/
  timers : List TimerHandle
  /-- Indices of handles on which `.cancel()` has been called. -/
  cancelled : List Nat
  /-- `self._commit_timers`: project id → index of its current handle. -/
  commit_timers : List (String × Nat)
deriving DecidableEq, Repr

/-- `EventProcessor._schedule_commit`: pop and cancel any existing handle for
the key, then `call_later(30, ...)` and store the new handle. Does nothing
when `self._loop` is unset. -/
def scheduleCommit (s : ProcState) (pid : String) : ProcState :=
  if s.loop_set = false then s
  else
    let cancelled' := match dictLookup s.commit_timers pid with
      | some i => i :: s.cancelled
      | none => s.cancelled
    { s with
      timers := s.timers ++ [{ key := pid, delay := AUTO_COMMIT_DEBOUNCE }]
      cancelled := cancelled'
      commit_timers := dictSet (dictPop s.commit_timers pid) pid s.timers.length }

/-- Every live (created, not cancelled) handle is the one its key's
`commit_timers` entry points at. -/
def TimerInv (s : ProcState) : Prop :=
  ∀ i t, s.timers.get? i = some t → i ∉ s.cancelled →
    dictLookup s.commit_timers t.key = some i

/-- No two live handles share a key. -/
def AtMostOneLivePerKey (s : ProcState) : Prop :=
  ∀ i j ti tj, s.timers.get? i = some ti → s.timers.get? j = some tj →
    i ∉ s.cancelled → j ∉ s.cancelled → ti.key = tj.key → i = j

def c6_proc0 : ProcState :=
  { loop_set := true, timers := [], cancelled := [], commit_timers := [] }

-- ─────────────────────────────────────────────────────────────
-- productivity_service.ProductivityService
-- ─────────────────────────────────────────────────────────────

/-- A Python set of strings (insertion-ordered, duplicate-free). -/
def setInsert (s : List String) (x : String) : List String :=
  if x ∈ s then s else s ++ [x]

def setUpdate (s : List String) (xs : List String) : List String :=
  xs.foldl setInsert s

/-- In-memory state of ProductivityService: active-session id, last-activity
timestamp and touched-file set per project id. -/
structure ProdState where
  active_sessions : List (String × Nat)
  last_activity : List (String × ℚ)
  session_files : List (String × List String)
deriving DecidableEq, Repr

/-- `self._session_files[project_id]` (defaultdict(set): empty when absent). -/
def sessionFilesGet (p : ProdState) (pid : String) : List String :=
  (dictLookup p.session_files pid).getD []

/-- The two unconditional in-memory updates at the top of `observe_activity`
(they run before any awaited db call, so they survive a later exception). -/
def observeTouch (p : ProdState) (pid : String) (paths : List String)
    (now : ℚ) : ProdState :=
  { p with
    last_activity := dictSet p.last_activity pid now
    session_files := dictSet p.session_files pid
      (setUpdate (sessionFilesGet p pid) paths) }

/-- `select(WorkSession).where(WorkSession.id == sid)`. -/
def findSession (l : List WorkSessionRow) (sid : Nat) : Option WorkSessionRow :=
  l.find? (fun s => decide (s.id = sid))

/-- Mutating the identity-mapped row with this id. -/
def updateSessionRow (l : List WorkSessionRow) (sid : Nat)
    (f : WorkSessionRow → WorkSessionRow) : List WorkSessionRow :=
  l.map (fun s => if s.id = sid then f s else s)

/-- `ProductivityService.observe_activity`: refresh last-activity and the
touched-file set; then either create a new ACTIVE session (no active session
for the key) or update the existing one. Returns the active session id. -/
def observe_activity (p : ProdState) (db : DbState) (pid : String)
    (paths : List String) (now : ℚ) : ProdState × DbState × Nat :=
  let p1 := observeTouch p pid paths now
  match dictLookup p1.active_sessions pid with
  | none =>
    let sid := db.next_session_id
    let sess : WorkSessionRow :=
      { id := sid, project_id := pid, status := SessionStatus.active
        started_at := now, ended_at := none, active_minutes := 0
        files_touched := paths.length, commits_made := 0 }
    ({ p1 with active_sessions := dictSet p1.active_sessions pid sid },
     { db with work_sessions := db.work_sessions ++ [sess], next_session_id := sid + 1 },
     sid)
  | some sid =>
    match findSession db.work_sessions sid with
    | some _ =>
      (p1,
       { db with work_sessions :=
          (updateSessionRow db.work_sessions sid (fun s =>
            { s with
              files_touched := (sessionFilesGet p1 pid).length
              status := SessionStatus.active })) },
       sid)
    | none => (p1, db, sid)

-- ── Metrics ──────────────────────────────────────────────────

/-- Python `round` to an integer: nearest, ties to even. -/
def pyRound (q : ℚ) : ℤ :=
  if q - ⌊q⌋ < 1/2 then ⌊q⌋
  else if 1/2 < q - ⌊q⌋ then ⌊q⌋ + 1
  else if ⌊q⌋ % 2 = 0 then ⌊q⌋ else ⌊q⌋ + 1

/-- `round(x, 2)`. -/
def round2 (q : ℚ) : ℚ := (pyRound (q * 100) : ℚ) / 100

/-- `_EXT_LANGUAGE`. -/
def EXT_LANGUAGE : List (String × String) :=
  [(".py", "Python"), (".pyx", "Python"),
   (".js", "JavaScript"), (".jsx", "JavaScript"), (".mjs", "JavaScript"),
   (".ts", "TypeScript"), (".tsx", "TypeScript"),
   (".rs", "Rust"), (".go", "Go"), (".java", "Java"), (".cs", "C#"),
   (".lua", "Lua"), (".rb", "Ruby"),
   (".cpp", "C++"), (".cc", "C++"), (".cxx", "C++"), (".c", "C"),
   (".html", "HTML"), (".css", "CSS"), (".scss", "SCSS"), (".sass", "SASS"),
   (".sh", "Shell")]

/-- `"." + path_str.rsplit(".", 1)[-1] if "." in path_str else ""`. -/
def extSuffix (s : String) : String :=
  if s.contains '.' then "." ++ ((s.splitOn ".").getLastD "") else ""

/-- collections.Counter as an insertion-ordered association list. -/
def counterAdd (c : List (String × Nat)) (x : String) (k : Nat) : List (String × Nat) :=
  match dictLookup c x with
  | some n => dictSet c x (n + k)
  | none => c ++ [(x, k)]

def buildCounter (xs : List String) : List (String × Nat) :=
  xs.foldl (fun c x => counterAdd c x 1) []

/-- `most_common(1)[0][0]`: highest count, ties broken by first insertion. -/
def mostCommon1 (c : List (String × Nat)) : Option String :=
  match c with
  | [] => none
  | kv :: rest =>
    some ((rest.foldl (fun best e => if e.2 > best.2 then e else best) kv).1)

/-- `ProductivityService._compute_metrics`: derive the metric row of a closed
session from its fields and the FileEvents in its time window, and add it. -/
def compute_metrics (sess : WorkSessionRow) (db : DbState) (now : ℚ) : DbState :=
  let endT := sess.ended_at.getD now
  let events := db.file_events.filter (fun e =>
    decide (e.project_id = sess.project_id ∧
      sess.started_at ≤ e.occurred_at ∧ e.occurred_at ≤ endT))
  let hours := max (sess.active_minutes / 60) (1/1000)
  let fileCounter := buildCounter
    ((events.filter (fun e => e.is_directory = false)).map
      (fun e => e.relative_path.getD e.file_path))
  let langCounter := fileCounter.foldl (fun acc kv =>
    match dictLookup EXT_LANGUAGE (extSuffix kv.1) with
    | some lang => counterAdd acc lang kv.2
    | none => acc) []
  { db with metrics := db.metrics ++
      [{ session_id := sess.id
         files_per_hour := round2 ((sess.files_touched : ℚ) / hours)
         commits_per_hour := round2 ((sess.commits_made : ℚ) / hours)
         lines_added := 0
         lines_removed := 0
         most_edited_file := mostCommon1 fileCounter
         primary_language := mostCommon1 langCounter }] }

/-- `ProductivityService.close_session`: pop the active-session entry FIRST;
bail out with None when no entry or no matching row; otherwise close the row,
recompute files_touched from the popped touched-file set, and compute the
metric. -/
def close_session (p : ProdState) (db : DbState) (pid : String) (now : ℚ) :
    ProdState × DbState × Option Nat :=
  match dictLookup p.active_sessions pid with
  | none => (p, db, none)
  | some sid =>
    let p1 := { p with active_sessions := dictPop p.active_sessions pid }
    match findSession db.work_sessions sid with
    | none => (p1, db, none)
    | some sess =>
      let files := sessionFilesGet p1 pid
      let p2 := { p1 with session_files := dictPop p1.session_files pid }
      let sess' := { sess with
        ended_at := some now
        status := SessionStatus.closed
        active_minutes := max 0 (now - sess.started_at)
        files_touched := files.length }
      let db1 := { db with
        work_sessions := updateSessionRow db.work_sessions sid (fun _ => sess') }
      (p2, compute_metrics sess' db1 now, some sid)

-- ─────────────────────────────────────────────────────────────
-- event_processor.EventProcessor: batch processing
-- ─────────────────────────────────────────────────────────────

/-- Which awaited persistence step (if any) raises while processing a batch. -/
inductive FailPoint where
  | noFail
  | atLookup
  | atEventsFlush
  | atObserve
  | atCommit
deriving DecidableEq, Repr

inductive BatchResult where
  | done
  | skippedInactive
  | errorLogged
deriving DecidableEq, Repr

/-- `select(Project).where(Project.id == project_id)`. -/
def projectLookup (db : DbState) (pid : String) : Option ProjectRow :=
  db.projects.find? (fun pr => decide (pr.id = pid))

/-- Adding one FileEvent row per batch entry (occurred_at from the column
default at insert time). -/
def addFileEvents (db : DbState) (pid : String) (batch : List FileEventEntry)
    (now : ℚ) : DbState :=
  { db with file_events := db.file_events ++ batch.map (fun e =>
      { project_id := pid
        event_type := e.event_type
        file_path := e.file_path
        relative_path := e.relative_path
        is_directory := e.is_directory
        occurred_at := now
        committed := false }) }

/-- `EventProcessor._process_batch`: verify the project is known and active,
persist the events, observe activity, commit, then schedule the auto-commit
timer. Any raising step lands in the except-branch: `db.rollback()` discards
the batch's pending writes (the returned store is the pre-batch one), the
error is logged and NO timer is touched. The in-memory ProductivityService
updates that already ran are NOT rolled back. -/
def processBatch (fp : FailPoint) (s : ProcState) (db : DbState) (p : ProdState)
    (pid : String) (batch : List FileEventEntry) (now : ℚ) :
    ProcState × DbState × ProdState × BatchResult :=
  if fp = FailPoint.atLookup then (s, db, p, BatchResult.errorLogged)
  else
    match projectLookup db pid with
    | none => (s, db, p, BatchResult.skippedInactive)
    | some proj =>
      if proj.is_active = false then (s, db, p, BatchResult.skippedInactive)
      else
        let filePaths := batch.map (fun e => e.file_path)
        let db1 := addFileEvents db pid batch now
        if fp = FailPoint.atEventsFlush then (s, db, p, BatchResult.errorLogged)
        else if fp = FailPoint.atObserve then
          (s, db, observeTouch p pid filePaths now, BatchResult.errorLogged)
        else
          let r := observe_activity p db1 pid filePaths now
          if fp = FailPoint.atCommit then (s, db, r.1, BatchResult.errorLogged)
          else
            (scheduleCommit s pid, r.2.1, r.1, BatchResult.done)

/-- One message pulled off the queue by `run`, with its fault injection. -/
structure BatchMsg where
  project_id : String
  batch : List FileEventEntry
  now : ℚ
  fail : FailPoint
deriving Repr

/-- `EventProcessor.run`: consume every queued message in order; per-batch
failures are caught (inside `_process_batch` and again in `run`) and the loop
moves on; only external cancellation — here, the end of the message list —
stops it. -/
def runLoop : ProcState → DbState → ProdState → List BatchMsg →
    ProcState × DbState × ProdState × List BatchResult
  | s, db, p, [] => (s, db, p, [])
  | s, db, p, m :: rest =>
    let r := processBatch m.fail s db p m.project_id m.batch m.now
    let r' := runLoop r.1 r.2.1 r.2.2.1 rest
    (r'.1, r'.2.1, r'.2.2.1, r.2.2.2 :: r'.2.2.2)

def c1_proj : ProjectRow :=
  { id := "p1", path := "/home/proj", project_type := "python", is_active := true }

def c1_db : DbState :=
  { projects := [c1_proj], file_events := [], work_sessions := [], metrics := []
    next_session_id := 1 }

def c1_proc : ProcState :=
  { loop_set := true, timers := [], cancelled := [], commit_timers := [] }

def c1_prod : ProdState :=
  { active_sessions := [], last_activity := [], session_files := [] }

def c7_db : DbState :=
  { projects := [], file_events := [], work_sessions := [], metrics := []
    next_session_id := 1 }

def c7_prod : ProdState :=
  { active_sessions := [], last_activity := [], session_files := [] }

def c9_prod : ProdState :=
  { active_sessions := [("p1", 5)], last_activity := [], session_files := [] }

def c9_db : DbState :=
  { projects := [], file_events := [], work_sessions := [], metrics := []
    next_session_id := 7 }

-- ─────────────────────────────────────────────────────────────
-- C8: metrics at close
-- ─────────────────────────────────────────────────────────────

def c8_sess : WorkSessionRow :=
  { id := 1, project_id := "p1", status := SessionStatus.active, started_at := 0
    ended_at := none, active_minutes := 0, files_touched := 0, commits_made := 0 }

def c8_prod : ProdState :=
  { active_sessions := [("p1", 1)], last_activity := []
    session_files := [("p1", ["a", "b", "c", "d", "e", "f", "g", "h", "i", "j"])] }

def c8_db : DbState :=
  { projects := [], file_events := [], work_sessions := [c8_sess], metrics := []
    next_session_id := 2 }

/-- The same setup with a single touched file, closed after 45 minutes. -/
def c8c_prod : ProdState :=
  { active_sessions := [("p1", 1)], last_activity := []
    session_files := [("p1", ["a"])] }

theorem dictLookup_set_self {α : Type} (d : List (String × α)) (k : String) (v : α) :
    dictLookup (dictSet d k v) k = some v := by
  induction d with
  | nil => simp [dictSet, dictLookup]
  | cons hd tl ih =>
    by_cases h : hd.1 = k
    · simp [dictSet, dictLookup, h]
    · simp [dictSet, dictLookup, h, ih]

theorem dictLookup_set_ne {α : Type} (d : List (String × α)) (k j : String) (v : α)
    (h : j ≠ k) : dictLookup (dictSet d k v) j = dictLookup d j := by
  induction d with
  | nil => simp [dictSet, dictLookup, Ne.symm h]
  | cons hd tl ih =>
    by_cases hk : hd.1 = k
    · simp [dictSet, dictLookup, hk, Ne.symm h]
    · simp [dictSet, dictLookup, hk, ih]

theorem dictLookup_pop_ne {α : Type} (d : List (String × α)) (k j : String)
    (h : j ≠ k) : dictLookup (dictPop d k) j = dictLookup d j := by
  induction d with
  | nil => simp [dictPop]
  | cons hd tl ih =>
    by_cases hk : hd.1 = k
    · simp [dictPop, dictLookup, hk, Ne.symm h]
    · simp [dictPop, dictLookup, hk, ih]

theorem dictLookup_eq_none_of_not_mem {α : Type} (d : List (String × α)) (k : String)
    (h : k ∉ d.map Prod.fst) : dictLookup d k = none := by
  induction d with
  | nil => simp [dictLookup]
  | cons hd tl ih =>
    simp only [List.map_cons, List.mem_cons] at h
    push_neg at h
    have h1 : ¬ hd.1 = k := fun hh => h.1 (Eq.symm hh)
    simp [dictLookup, h1, ih h.2]

theorem dictLookup_pop_self {α : Type} (d : List (String × α)) (k : String)
    (h : (d.map Prod.fst).Nodup) : dictLookup (dictPop d k) k = none := by
  induction d with
  | nil => simp [dictPop, dictLookup]
  | cons hd tl ih =>
    simp only [List.map_cons, List.nodup_cons] at h
    by_cases hk : hd.1 = k
    · have hp : dictPop (hd :: tl) k = tl := by simp [dictPop, hk]
      rw [hp]
      exact dictLookup_eq_none_of_not_mem tl k (hk ▸ h.1)
    · simp [dictPop, dictLookup, hk, ih h.2]

theorem countPK_zero_iff (buf : List FileEventEntry) (fp : String) (t : EventType) :
    countPK buf fp t = 0 ↔ ∀ e ∈ buf, ¬ (e.file_path = fp ∧ e.event_type = t) := by
  simp [countPK, List.countP_eq_zero]

theorem countPK_append (b1 b2 : List FileEventEntry) (fp : String) (t : EventType) :
    countPK (b1 ++ b2) fp t = countPK b1 fp t + countPK b2 fp t := by
  simp [countPK, List.countP_append]

theorem mem_of_getLast?_eq (l : List String) (a : String)
    (h : l.getLast? = some a) : a ∈ l := by
  have hm : a ∈ l.getLast? := by rw [h]; rfl
  obtain ⟨hne, heq⟩ := List.mem_getLast?_eq_getLast hm
  exact heq ▸ List.getLast_mem hne

/-- With both filters passing and no matching entry buffered, `_push` appends
exactly the new entry. -/
theorem pushEntry_append (h : HandlerState) (src : FsPath) (d : Bool)
    (t : EventType) (n : ℚ)
    (hext : src.suffix ∉ h.ignored_extensions)
    (hdir : ¬ ∃ c ∈ src.parts, c ∈ h.ignored_dirs)
    (hfresh : countPK h.buffer (pathStr src) t = 0) :
    pushEntry h src d t n = { h with buffer := h.buffer ++ [mkEntry h src d t n] } := by
  have halready : ¬ ∃ e ∈ h.buffer,
      e.file_path = (mkEntry h src d t n).file_path ∧
      e.event_type = (mkEntry h src d t n).event_type := by
    rintro ⟨e, he, hm⟩
    exact (countPK_zero_iff _ _ _).mp hfresh e he hm
  rw [pushEntry, if_neg hext, if_neg hdir]
  simp only [if_neg halready]

/-- With both filters passing and a matching entry already buffered, `_push` is
a no-op (dedup). -/
theorem pushEntry_dedup (h : HandlerState) (src : FsPath) (d : Bool)
    (t : EventType) (n : ℚ)
    (hext : src.suffix ∉ h.ignored_extensions)
    (hdir : ¬ ∃ c ∈ src.parts, c ∈ h.ignored_dirs)
    (hdup : ∃ e ∈ h.buffer, e.file_path = pathStr src ∧ e.event_type = t) :
    pushEntry h src d t n = h := by
  have hdup' : ∃ e ∈ h.buffer,
      e.file_path = (mkEntry h src d t n).file_path ∧
      e.event_type = (mkEntry h src d t n).event_type := hdup
  rw [pushEntry, if_neg hext, if_neg hdir]
  simp only [if_pos hdup']

-- ─────────────────────────────────────────────────────────────
-- C5: dedup by (absolutePath, kind) within one unflushed window
-- ─────────────────────────────────────────────────────────────

/-- C5: within one unflushed debounce window, a second `push` with the same
(absolutePath, kind) leaves the buffer unchanged, so the flushed batch holds
exactly one entry for that pair; pushing the same path with a distinct kind is
not coalesced: both kinds stay, one entry each. -/
theorem pushEntry_dedup_same_pair_distinct_kinds_kept
    (h : HandlerState) (src : FsPath) (d d' : Bool) (t t' : EventType) (n n' : ℚ)
    (hext : src.suffix ∉ h.ignored_extensions)
    (hdir : ¬ ∃ c ∈ src.parts, c ∈ h.ignored_dirs)
    (hfresh : countPK h.buffer (pathStr src) t = 0)
    (hfresh' : countPK h.buffer (pathStr src) t' = 0)
    (hne : t ≠ t') :
    pushEntry (pushEntry h src d t n) src d' t n' = pushEntry h src d t n ∧
    countPK (pushEntry (pushEntry h src d t n) src d' t n').buffer (pathStr src) t = 1 ∧
    countPK (pushEntry (pushEntry h src d t n) src d' t' n').buffer (pathStr src) t = 1 ∧
    countPK (pushEntry (pushEntry h src d t n) src d' t' n').buffer (pathStr src) t' = 1 := by
  have h1 := pushEntry_append h src d t n hext hdir hfresh
  have hbuf1 : (pushEntry h src d t n).buffer = h.buffer ++ [mkEntry h src d t n] := by
    rw [h1]
  have hcnt1 : countPK (pushEntry h src d t n).buffer (pathStr src) t = 1 := by
    rw [hbuf1, countPK_append, hfresh]
    simp [countPK, mkEntry]
  have hcnt1' : countPK (pushEntry h src d t n).buffer (pathStr src) t' = 0 := by
    rw [hbuf1, countPK_append, hfresh']
    simp [countPK, mkEntry, hne]
  have hext1 : src.suffix ∉ (pushEntry h src d t n).ignored_extensions := by
    rw [h1]; exact hext
  have hdir1 : ¬ ∃ c ∈ src.parts, c ∈ (pushEntry h src d t n).ignored_dirs := by
    rw [h1]; exact hdir
  have hdup : ∃ e ∈ (pushEntry h src d t n).buffer,
      e.file_path = pathStr src ∧ e.event_type = t := by
    refine ⟨mkEntry h src d t n, ?_, rfl, rfl⟩
    rw [hbuf1]
    simp
  have hsame := pushEntry_dedup (pushEntry h src d t n) src d' t n' hext1 hdir1 hdup
  have h2 := pushEntry_append (pushEntry h src d t n) src d' t' n' hext1 hdir1 hcnt1'
  refine ⟨hsame, by rw [hsame]; exact hcnt1, ?_, ?_⟩
  · rw [h2]
    show countPK ((pushEntry h src d t n).buffer ++ [mkEntry _ src d' t' n']) _ _ = 1
    rw [countPK_append, hcnt1]
    simp [countPK, mkEntry, Ne.symm hne]
  · rw [h2]
    show countPK ((pushEntry h src d t n).buffer ++ [mkEntry _ src d' t' n']) _ _ = 1
    rw [countPK_append, hcnt1']
    simp [countPK, mkEntry]

theorem pushEntry_dedup_witness :
    pushEntry (pushEntry c5_handler c5_src false EventType.modified 0)
        c5_src false EventType.modified 1
      = pushEntry c5_handler c5_src false EventType.modified 0 ∧
    countPK (pushEntry (pushEntry c5_handler c5_src false EventType.modified 0)
        c5_src false EventType.created 1).buffer (pathStr c5_src) EventType.created = 1 := by
  have h := pushEntry_dedup_same_pair_distinct_kinds_kept c5_handler c5_src
    false false EventType.modified EventType.created 0 1
    (by decide) (by decide) (by decide) (by decide) (by decide)
  exact ⟨h.1, h.2.2.2⟩

-- ─────────────────────────────────────────────────────────────
-- C10: the ignored-dirs filter also matches the final file name
-- ─────────────────────────────────────────────────────────────

/-- C10: `set(src_path.parts)` includes the base name, so an event whose file
name itself equals a configured ignored directory name is dropped. -/
theorem pushEntry_drops_file_named_like_ignored_dir
    (h : HandlerState) (src : FsPath) (d : Bool) (t : EventType) (n : ℚ)
    (dname : String)
    (hlast : src.parts.getLast? = some dname)
    (hig : dname ∈ h.ignored_dirs) :
    pushEntry h src d t n = h := by
  by_cases hext : src.suffix ∈ h.ignored_extensions
  · rw [pushEntry, if_pos hext]
  · have hdir : ∃ c ∈ src.parts, c ∈ h.ignored_dirs :=
      ⟨dname, mem_of_getLast?_eq _ _ hlast, hig⟩
    rw [pushEntry, if_neg hext, if_pos hdir]

theorem pushEntry_drops_file_named_like_ignored_dir_witness :
    pushEntry c10_handler c10_src false EventType.created 0 = c10_handler := by
  have h := pushEntry_drops_file_named_like_ignored_dir c10_handler c10_src
    false EventType.created 0 "node_modules" (by decide) (by decide)
  exact h

/-- C3 counterexample: "p1" is already being watched, yet a second
watch_project returns true, not false as the claim states. -/
theorem watch_project_already_watched_returns_true :
    "p1" ∈ c3_watched.handlers ∧
    (watch_project c3_watched "p1" c3_dir).2 = true := by
  constructor
  · decide
  · decide

/-- C3 (amended): watch_project is idempotent; for an already-watched key it
returns TRUE and leaves the state untouched (no second handler registered); it
returns false exactly when the key is new and the path is missing or not a
directory, in which case it also registers nothing. -/
theorem watch_project_idempotent_invalid_path_false
    (s : WatcherState) (pid : String) (path : FsDir) :
    (pid ∈ s.handlers → watch_project s pid path = (s, true)) ∧
    (pid ∉ s.handlers → (path.fs_exists = false ∨ path.fs_is_dir = false) →
      watch_project s pid path = (s, false)) := by
  constructor
  · intro hmem
    rw [watch_project, if_pos hmem]
  · intro hmem hbad
    have hcond : ¬ path.fs_exists = true ∨ ¬ path.fs_is_dir = true := by
      rcases hbad with hb | hb
      · exact Or.inl (by simp [hb])
      · exact Or.inr (by simp [hb])
    rw [watch_project, if_neg hmem, if_pos hcond]

theorem watch_project_idempotent_invalid_path_false_witness :
    watch_project c3_watched "p1" c3_dir = (c3_watched, true) ∧
    watch_project c3_watched "p2" c3_bad_dir = (c3_watched, false) := by
  have h1 := (watch_project_idempotent_invalid_path_false c3_watched "p1" c3_dir).1
    (by decide)
  have h2 := (watch_project_idempotent_invalid_path_false c3_watched "p2" c3_bad_dir).2
    (by decide) (Or.inl (by decide))
  exact ⟨h1, h2⟩

/-- C2 counterexample: the queue is created as `asyncio.Queue()` with maxsize
0, i.e. UNBOUNDED; a send into a queue already holding 100 batches still
succeeds (nothing is dropped, nothing is counted), so the channel is not
bounded and no full-channel drop with counter increment exists. -/
theorem sync_flush_callback_unbounded_counterexample :
    (watcherInit defaultSettings).queue_maxsize = 0 ∧
    (sync_flush_callback c2_state "p1" []).2 = true ∧
    (sync_flush_callback c2_state "p1" []).1.queue.length = 101 := by
  refine ⟨rfl, rfl, ?_⟩
  simp [sync_flush_callback, put_nowait, c2_state, watcherInit]

/-- C2 (amended): the channel is an asyncio.Queue with default maxsize 0,
hence unbounded; `put_nowait` never blocks the caller and never finds the
queue full, so every send appends the batch. (The QueueFull handler — which
would drop the batch and log a warning, without incrementing any counter,
since none exists — is unreachable at maxsize 0.) -/
theorem sync_flush_callback_never_drops
    (s : WatcherState) (pid : String) (batch : List FileEventEntry)
    (hm : s.queue_maxsize = 0) :
    sync_flush_callback s pid batch
      = ({ s with queue := s.queue ++ [{ project_id := pid, batch := batch }] }, true) := by
  rw [sync_flush_callback, put_nowait]
  rw [if_neg (by rw [hm]; intro hc; exact absurd hc.1 (by decide))]

theorem sync_flush_callback_never_drops_witness :
    sync_flush_callback (watcherInit defaultSettings) "p1" []
      = ({ watcherInit defaultSettings with queue := [{ project_id := "p1", batch := [] }] },
         true) := by
  have h := sync_flush_callback_never_drops (watcherInit defaultSettings) "p1" [] rfl
  simpa using h

/-- C4 (code bug): after unwatch_project("p1") the `_handlers` entry is gone
and the queue is empty, yet the handler is still scheduled on the Observer, so
a brand-new filesystem event is still buffered and its flush still lands in
the processing queue — the unwatched key keeps forwarding NEW events into the
pipeline, contradicting the docstring "Stop monitoring a project". -/
theorem unwatch_project_keeps_forwarding_new_events :
    c4_s2.handlers = [] ∧
    c4_s2.queue = [] ∧
    c4_s4.queue.length = 1 ∧
    c4_s4.queue.map (fun i => i.project_id) = ["p1"] ∧
    c4_s4.queue.map (fun i => i.batch.map (fun e => e.file_path))
      = [["//home/proj/main.py"]] := by
  refine ⟨by decide, by decide, ?_, ?_, ?_⟩
  · decide
  · decide
  · decide

theorem atMostOne_of_timerInv (s : ProcState) (h : TimerInv s) :
    AtMostOneLivePerKey s := by
  intro i j ti tj hi hj hci hcj hk
  have h1 := h i ti hi hci
  have h2 := h j tj hj hcj
  rw [hk] at h1
  rw [h1] at h2
  exact Option.some_inj.mp h2

theorem timerInv_scheduleCommit (s : ProcState) (pid : String) (hinv : TimerInv s) :
    TimerInv (scheduleCommit s pid) := by
  by_cases hl : s.loop_set = false
  · rw [scheduleCommit, if_pos hl]; exact hinv
  · rw [scheduleCommit, if_neg hl]
    intro i t hit hic
    rcases Nat.lt_trichotomy i s.timers.length with hlt | heq | hgt
    · -- an old handle
      have hold : s.timers.get? i = some t := by
        rw [← List.get?_append hlt]; exact hit
      have hic0 : i ∉ s.cancelled := by
        intro hmem
        apply hic
        cases hdl : dictLookup s.commit_timers pid with
        | none => simpa [hdl] using hmem
        | some k => simp [hdl]; exact Or.inr hmem
      have hl0 := hinv i t hold hic0
      by_cases hkey : t.key = pid
      · exfalso
        apply hic
        rw [hkey] at hl0
        simp [hl0]
      · have := dictLookup_pop_ne s.commit_timers pid t.key hkey
        simp only [dictLookup_set_ne _ _ _ _ hkey, this]
        exact hl0
    · -- the freshly created handle
      subst heq
      have : t = { key := pid, delay := AUTO_COMMIT_DEBOUNCE } := by
        have := List.get?_concat_length s.timers { key := pid, delay := AUTO_COMMIT_DEBOUNCE }
        rw [this] at hit
        exact (Option.some_inj.mp hit).symm
      subst this
      simp only [dictLookup_set_self]
    · -- out of range
      exfalso
      have : (s.timers ++ [({ key := pid, delay := AUTO_COMMIT_DEBOUNCE } : TimerHandle)]).get? i = none := by
        rw [List.get?_eq_none]
        simp only [List.length_append, List.length_singleton]
        omega
      rw [this] at hit
      exact Option.noConfusion hit

/-- C6: with the loop running, `_schedule_commit(key)` cancels the key's
existing handle (when one exists), creates exactly one fresh handle with the
fixed 30-second delay and stores it for the key, and preserves the invariant
that at most one live timer exists per key. -/
theorem scheduleCommit_cancel_then_fresh_30s
    (s : ProcState) (pid : String)
    (hloop : s.loop_set = true) (hinv : TimerInv s) :
    (scheduleCommit s pid).timers
        = s.timers ++ [{ key := pid, delay := 30 }] ∧
    (∀ i, dictLookup s.commit_timers pid = some i →
        i ∈ (scheduleCommit s pid).cancelled) ∧
    dictLookup (scheduleCommit s pid).commit_timers pid = some s.timers.length ∧
    TimerInv (scheduleCommit s pid) ∧
    AtMostOneLivePerKey (scheduleCommit s pid) := by
  have hl : ¬ s.loop_set = false := by rw [hloop]; decide
  refine ⟨?_, ?_, ?_, timerInv_scheduleCommit s pid hinv,
    atMostOne_of_timerInv _ (timerInv_scheduleCommit s pid hinv)⟩
  · simp [scheduleCommit, hl, AUTO_COMMIT_DEBOUNCE]
  · intro i hi
    rw [scheduleCommit, if_neg hl]
    simp [hi]
  · rw [scheduleCommit, if_neg hl]
    simp only [dictLookup_set_self]

theorem scheduleCommit_cancel_then_fresh_30s_witness :
    (scheduleCommit c6_proc0 "p1").timers = [{ key := "p1", delay := 30 }] ∧
    dictLookup (scheduleCommit c6_proc0 "p1").commit_timers "p1" = some 0 := by
  have h := scheduleCommit_cancel_then_fresh_30s c6_proc0 "p1" rfl
    (by intro i t hit hic; simp [c6_proc0] at hit)
  exact ⟨h.1, h.2.2.1⟩

theorem runLoop_processes_all (s : ProcState) (db : DbState) (p : ProdState)
    (msgs : List BatchMsg) :
    (runLoop s db p msgs).2.2.2.length = msgs.length := by
  induction msgs generalizing s db p with
  | nil => rfl
  | cons m rest ih => simp [runLoop, ih]

-- ─────────────────────────────────────────────────────────────
-- C1: per-batch failure isolation
-- ─────────────────────────────────────────────────────────────

/-- C1: for a known, active project, a raise in any persistence step of
`_process_batch` leaves the durable store exactly as before the batch
(rollback, so no partial session update survives), reschedules no commit
timer, yields the logged-error outcome, and the consumer loop still processes
every subsequent batch (one result per message, no early termination). -/
theorem processBatch_failure_isolated
    (fp : FailPoint) (s : ProcState) (db : DbState) (p : ProdState)
    (pid : String) (batch : List FileEventEntry) (now : ℚ) (proj : ProjectRow)
    (hfp : fp ≠ FailPoint.noFail)
    (hproj : projectLookup db pid = some proj)
    (hact : proj.is_active = true) :
    (processBatch fp s db p pid batch now).2.1 = db ∧
    (processBatch fp s db p pid batch now).1 = s ∧
    (processBatch fp s db p pid batch now).2.2.2 = BatchResult.errorLogged ∧
    (∀ (s0 : ProcState) (db0 : DbState) (p0 : ProdState) (msgs : List BatchMsg),
      (runLoop s0 db0 p0 msgs).2.2.2.length = msgs.length) := by
  refine ⟨?_, ?_, ?_, fun s0 db0 p0 msgs => runLoop_processes_all s0 db0 p0 msgs⟩
  · cases fp with
    | noFail => exact absurd rfl hfp
    | atLookup => simp [processBatch]
    | atEventsFlush => simp [processBatch, hproj, hact]
    | atObserve => simp [processBatch, hproj, hact]
    | atCommit => simp [processBatch, hproj, hact]
  · cases fp with
    | noFail => exact absurd rfl hfp
    | atLookup => simp [processBatch]
    | atEventsFlush => simp [processBatch, hproj, hact]
    | atObserve => simp [processBatch, hproj, hact]
    | atCommit => simp [processBatch, hproj, hact]
  · cases fp with
    | noFail => exact absurd rfl hfp
    | atLookup => simp [processBatch]
    | atEventsFlush => simp [processBatch, hproj, hact]
    | atObserve => simp [processBatch, hproj, hact]
    | atCommit => simp [processBatch, hproj, hact]

theorem processBatch_failure_isolated_witness :
    (processBatch FailPoint.atCommit c1_proc c1_db c1_prod "p1" [] 0).2.1 = c1_db ∧
    (processBatch FailPoint.atCommit c1_proc c1_db c1_prod "p1" [] 0).1 = c1_proc ∧
    (processBatch FailPoint.atCommit c1_proc c1_db c1_prod "p1" [] 0).2.2.2
      = BatchResult.errorLogged := by
  have h := processBatch_failure_isolated FailPoint.atCommit c1_proc c1_db c1_prod
    "p1" [] 0 c1_proj (by decide) (by decide) (by decide)
  exact ⟨h.1, h.2.1, h.2.2.1⟩

-- ─────────────────────────────────────────────────────────────
-- Session lookup lemmas
-- ─────────────────────────────────────────────────────────────

theorem findSession_append_fresh (l : List WorkSessionRow) (a : WorkSessionRow)
    (h : ∀ s ∈ l, s.id ≠ a.id) : findSession (l ++ [a]) a.id = some a := by
  induction l with
  | nil => simp [findSession]
  | cons hd tl ih =>
    have hne : ¬ hd.id = a.id := h hd (List.mem_cons_self hd tl)
    have := ih (fun s hs => h s (List.mem_cons_of_mem hd hs))
    simpa [findSession, List.find?_cons, hne] using this

theorem findSession_update_const (l : List WorkSessionRow) (sid : Nat)
    (sess' : WorkSessionRow) (hid : sess'.id = sid) :
    findSession (updateSessionRow l sid (fun _ => sess')) sid
      = (findSession l sid).map (fun _ => sess') := by
  induction l with
  | nil => simp [findSession, updateSessionRow]
  | cons hd tl ih =>
    by_cases hk : hd.id = sid
    · simp [findSession, updateSessionRow, List.find?_cons, hk, hid]
    · simp only [updateSessionRow, List.map_cons, if_neg hk] at *
      simpa [findSession, List.find?_cons, hk] using ih

-- ─────────────────────────────────────────────────────────────
-- C7: observe creates exactly one session, then always updates it
-- ─────────────────────────────────────────────────────────────

/-- C7: on a key with no active session, `observe_activity` creates exactly
one new ACTIVE session (startedAt = now, filesTouched = len(paths)) with the
fresh id and records it as the key's active session; a subsequent observe on
the same key returns that same id, adds no session row, and keeps the same
active-session entry. -/
theorem observe_activity_creates_once_then_updates
    (p : ProdState) (db : DbState) (pid : String)
    (paths paths' : List String) (now now' : ℚ)
    (hnone : dictLookup p.active_sessions pid = none)
    (hfresh : ∀ sess ∈ db.work_sessions, sess.id ≠ db.next_session_id) :
    (observe_activity p db pid paths now).2.1.work_sessions
      = db.work_sessions ++
        [{ id := db.next_session_id, project_id := pid
           status := SessionStatus.active, started_at := now, ended_at := none
           active_minutes := 0, files_touched := paths.length, commits_made := 0 }] ∧
    (observe_activity p db pid paths now).2.2 = db.next_session_id ∧
    dictLookup (observe_activity p db pid paths now).1.active_sessions pid
      = some db.next_session_id ∧
    (observe_activity (observe_activity p db pid paths now).1
        (observe_activity p db pid paths now).2.1 pid paths' now').2.2
      = db.next_session_id ∧
    (observe_activity (observe_activity p db pid paths now).1
        (observe_activity p db pid paths now).2.1 pid paths' now').2.1.work_sessions.length
      = db.work_sessions.length + 1 ∧
    dictLookup (observe_activity (observe_activity p db pid paths now).1
        (observe_activity p db pid paths now).2.1 pid paths' now').1.active_sessions pid
      = some db.next_session_id := by
  have hl1 : dictLookup (observeTouch p pid paths now).active_sessions pid = none := hnone
  have e1 : observe_activity p db pid paths now
      = ({ observeTouch p pid paths now with
            active_sessions :=
              dictSet (observeTouch p pid paths now).active_sessions pid db.next_session_id },
         { db with
            work_sessions := db.work_sessions ++
              [{ id := db.next_session_id, project_id := pid
                 status := SessionStatus.active, started_at := now, ended_at := none
                 active_minutes := 0, files_touched := paths.length, commits_made := 0 }]
            next_session_id := db.next_session_id + 1 },
         db.next_session_id) := by
    rw [observe_activity]
    simp only [hl1]
  rw [e1]
  have hl2 : dictLookup
      (dictSet (observeTouch p pid paths now).active_sessions pid db.next_session_id)
      pid = some db.next_session_id := dictLookup_set_self _ _ _
  refine ⟨rfl, rfl, hl2, ?_, ?_, ?_⟩
  all_goals {
    have hfind : findSession
        (db.work_sessions ++
          [{ id := db.next_session_id, project_id := pid
             status := SessionStatus.active, started_at := now, ended_at := none
             active_minutes := 0, files_touched := paths.length, commits_made := 0 }])
        db.next_session_id
        = some { id := db.next_session_id, project_id := pid
                 status := SessionStatus.active, started_at := now, ended_at := none
                 active_minutes := 0, files_touched := paths.length, commits_made := 0 } :=
      findSession_append_fresh _ _ hfresh
    simp [observe_activity, observeTouch, dictLookup_set_self, hfind, updateSessionRow]
  }

theorem observe_activity_creates_once_then_updates_witness :
    (observe_activity c7_prod c7_db "p1" ["a"] 0).2.1.work_sessions
      = [{ id := 1, project_id := "p1", status := SessionStatus.active
           started_at := 0, ended_at := none, active_minutes := 0
           files_touched := 1, commits_made := 0 }] ∧
    (observe_activity (observe_activity c7_prod c7_db "p1" ["a"] 0).1
        (observe_activity c7_prod c7_db "p1" ["a"] 0).2.1 "p1" ["b"] 5).2.2 = 1 := by
  have h := observe_activity_creates_once_then_updates c7_prod c7_db "p1" ["a"] ["b"] 0 5
    (by decide) (by intro sess hs; simp [c7_db] at hs)
  exact ⟨h.1, h.2.2.2.1⟩

-- ─────────────────────────────────────────────────────────────
-- C9: close_session's not-found path drops the active entry
-- ─────────────────────────────────────────────────────────────

/-- C9: when an active-session id is recorded but its row is missing,
`close_session` returns None and leaves the store untouched, yet has already
popped the key's active-session entry; the next observe on that key therefore
creates a brand-new session instead of resuming. -/
theorem close_session_missing_row_loses_entry
    (p : ProdState) (db : DbState) (pid : String) (sid : Nat)
    (paths' : List String) (now now' : ℚ)
    (hnodup : (p.active_sessions.map Prod.fst).Nodup)
    (hsid : dictLookup p.active_sessions pid = some sid)
    (hmiss : findSession db.work_sessions sid = none) :
    (close_session p db pid now).2.2 = none ∧
    (close_session p db pid now).2.1 = db ∧
    dictLookup (close_session p db pid now).1.active_sessions pid = none ∧
    (observe_activity (close_session p db pid now).1 db pid paths' now').2.1.work_sessions
      = db.work_sessions ++
        [{ id := db.next_session_id, project_id := pid
           status := SessionStatus.active, started_at := now', ended_at := none
           active_minutes := 0, files_touched := paths'.length, commits_made := 0 }] ∧
    (observe_activity (close_session p db pid now).1 db pid paths' now').2.2
      = db.next_session_id := by
  have e1 : close_session p db pid now
      = ({ p with active_sessions := dictPop p.active_sessions pid }, db, none) := by
    rw [close_session]
    simp only [hsid, hmiss]
  rw [e1]
  have hpop : dictLookup (dictPop p.active_sessions pid) pid = none :=
    dictLookup_pop_self p.active_sessions pid hnodup
  refine ⟨rfl, rfl, hpop, ?_, ?_⟩
  all_goals simp [observe_activity, observeTouch, hpop]

theorem close_session_missing_row_loses_entry_witness :
    (close_session c9_prod c9_db "p1" 0).2.2 = none ∧
    dictLookup (close_session c9_prod c9_db "p1" 0).1.active_sessions "p1" = none ∧
    (observe_activity (close_session c9_prod c9_db "p1" 0).1 c9_db "p1" ["a"] 1).2.2 = 7 := by
  have h := close_session_missing_row_loses_entry c9_prod c9_db "p1" 5 ["a"] 0 1
    (by decide) (by decide) (by decide)
  exact ⟨h.1, h.2.2.1, h.2.2.2.2⟩

/-- C8 counterexample: one touched file, 45 active minutes. The claim's
formula gives filesTouched / max(activeMinutes/60, eps) = 1 / (3/4) = 4/3,
but the code stores round(4/3, 2) = 1.33: the stored filesPerHour is the
two-decimal rounding of that quotient, not the quotient itself. -/
theorem close_session_fph_not_exact_quotient :
    ((close_session c8c_prod c8_db "p1" 45).2.1.metrics.map
      (fun m => m.files_per_hour)) = [133/100] ∧
    (133 : ℚ)/100 ≠ (1 : ℚ) / max ((45 : ℚ)/60) (1/1000) := by
  constructor
  · have hs1 : dictLookup c8c_prod.active_sessions "p1" = some 1 := rfl
    have hs2 : findSession c8_db.work_sessions 1 = some c8_sess := rfl
    have hs3 : dictLookup c8c_prod.session_files "p1" = some ["a"] := rfl
    simp only [close_session, hs1, hs2, compute_metrics, sessionFilesGet]
    norm_num [c8_db, c8_sess, c8c_prod, hs3, dictLookup, buildCounter, mostCommon1,
      round2, pyRound, Int.fract]
  · norm_num

/-- C8 (amended): closing a session sets activeMinutes = max(0, now −
startedAt) and stores filesPerHour = round(filesTouched / max(activeMinutes /
60, 0.001), 2) — the quotient of the claim rounded to two decimals — where
filesTouched is the size of the accumulated touched-file set; at
filesTouched = 10 and activeMinutes = 30 the stored value is exactly 20.0. -/
theorem close_session_active_minutes_and_fph
    (p : ProdState) (db : DbState) (pid : String) (sid : Nat)
    (sess : WorkSessionRow) (now : ℚ)
    (hsid : dictLookup p.active_sessions pid = some sid)
    (hfound : findSession db.work_sessions sid = some sess) :
    findSession (close_session p db pid now).2.1.work_sessions sid
      = some { sess with
          ended_at := some now
          status := SessionStatus.closed
          active_minutes := max 0 (now - sess.started_at)
          files_touched := (sessionFilesGet p pid).length } ∧
    (close_session p db pid now).2.1.metrics.length = db.metrics.length + 1 ∧
    ((close_session p db pid now).2.1.metrics.getLast?).map (fun m => m.files_per_hour)
      = some (round2 (((sessionFilesGet p pid).length : ℚ) /
          max (max 0 (now - sess.started_at) / 60) (1/1000))) ∧
    ((close_session c8_prod c8_db "p1" 30).2.1.metrics.map
      (fun m => m.files_per_hour)) = [20] := by
  have hid : sess.id = sid := by
    have := List.find?_some hfound
    exact of_decide_eq_true this
  have hid' : ({ sess with
      ended_at := some now
      status := SessionStatus.closed
      active_minutes := max 0 (now - sess.started_at)
      files_touched := (sessionFilesGet p pid).length } : WorkSessionRow).id = sid := hid
  refine ⟨?_, ?_, ?_, ?_⟩
  · have hid2 : ({ sess with
        ended_at := some now
        status := SessionStatus.closed
        active_minutes := max 0 (now - sess.started_at)
        files_touched := ((dictLookup p.session_files pid).getD []).length } :
          WorkSessionRow).id = sid := hid
    simp only [close_session, hsid, hfound, compute_metrics, sessionFilesGet]
    rw [findSession_update_const _ _ _ hid2, hfound]
    rfl
  · simp [close_session, hsid, hfound, compute_metrics]
  · simp only [close_session, hsid, hfound, compute_metrics, sessionFilesGet]
    simp [List.getLast?_concat]
  · have hs1 : dictLookup c8_prod.active_sessions "p1" = some 1 := rfl
    have hs2 : findSession c8_db.work_sessions 1 = some c8_sess := rfl
    have hs3 : dictLookup c8_prod.session_files "p1"
        = some ["a", "b", "c", "d", "e", "f", "g", "h", "i", "j"] := rfl
    simp only [close_session, hs1, hs2, compute_metrics, sessionFilesGet]
    norm_num [c8_db, c8_sess, c8_prod, hs3, dictLookup, buildCounter, mostCommon1,
      round2, pyRound, Int.fract]

theorem close_session_active_minutes_and_fph_witness :
    ((close_session c8_prod c8_db "p1" 30).2.1.metrics.getLast?).map
        (fun m => m.files_per_hour)
      = some (round2 (((sessionFilesGet c8_prod "p1").length : ℚ) /
          max (max 0 ((30 : ℚ) - c8_sess.started_at) / 60) (1/1000))) ∧
    (close_session c8_prod c8_db "p1" 30).2.1.metrics.length = 1 := by
  have h := close_session_active_minutes_and_fph c8_prod c8_db "p1" 1 c8_sess 30
    (by decide) (by decide)
  exact ⟨h.2.2.1, h.2.1⟩
